import Mathlib

/-
Shallow embedding of the connection/orchestration layer of the
PythonEquipmentDrivers repository:

* the serial transport session registry
  (`Scpi_Instrument._serial_instruments` / `Scpi_Instrument.open_instrument`,
  identical in `core.py` and `__core.py`),
* session equality (`Scpi_Instrument.__eq__` / `__ne__`),
* `Scpi_Instrument.set_local` (the `core.py` and `__core.py` variants differ),
* the `Dmms` group container (`Dmms.fetch_data`),
* device initialization (`initiaize_device`, keeping the source's spelling),
* the `EnvironmentSetup` orchestrator of `__core.py`
  (`__init__` and `__make_connections`).

Python strings are Lean `String`s; pyvisa resource handles are numbered
`Nat`s handed out in the order `rm.open_resource` succeeds; Python dicts
are association lists in insertion order; raised exceptions are `Except`
errors.  Console diagnostics that report per-device outcomes are modelled
as an `Event` trace.
-/

/-- Python substring test on character lists: `needle` occurs contiguously
inside `hay`. -/
def listContains (needle hay : List Char) : Bool :=
  hay.tails.any (fun t => needle.isPrefixOf t)

/-- Python `needle in hay` for strings. -/
def strContains (needle hay : String) : Bool :=
  listContains needle.toList hay.toList

/-- Python `str.upper()` (the addresses involved are ASCII). -/
def pyUpper (s : String) : String :=
  String.mk (s.toList.map Char.toUpper)

/-- The characters before the first occurrence of `"::"`, i.e.
`address.split("::")[0]` on character lists. -/
def shortFormList : List Char → List Char
  | [] => []
  | ':' :: ':' :: _ => []
  | c :: rest => c :: shortFormList rest

/-- Python `address.split("::")[0]`, the short-form serial key registered by
`open_instrument`. -/
def shortForm (address : String) : String :=
  String.mk (shortFormList address.toList)

/-- Python `x in l` for a list of strings (membership by string equality). -/
def strMem (x : String) : List String → Bool
  | [] => false
  | y :: rest => if x = y then true else strMem x rest

/-- State of the process-wide serial registry: the class attribute
`Scpi_Instrument._serial_instruments` (a list of
`(short-form address, pyvisa resource)` pairs) together with the supply of
fresh handles that `rm.open_resource` would return next. -/
structure RegState where
  registry : List (String × Nat)
  nextHandle : Nat
deriving DecidableEq

/-- The registry at process start: empty list, no handle opened yet. -/
def regInit : RegState := ⟨[], 0⟩

/-- `Scpi_Instrument.open_instrument(address)` (identical in `core.py` and
`__core.py`).  If `"ASRL" in address.upper()`, the registry is scanned in
order for the first entry whose stored key `addr` satisfies
`addr in address.upper()` (substring containment); on a hit that entry's
handle is returned and the state is unchanged; on a miss a fresh handle is
opened and the pair `(address.split("::")[0], handle)` is appended.
Non-serial addresses always open a fresh handle and never touch the
registry. -/
def open_instrument (st : RegState) (address : String) : Nat × RegState :=
  if strContains "ASRL" (pyUpper address) then
    match st.registry.find? (fun e => strContains e.1 (pyUpper address)) with
    | some e => (e.2, st)
    | none =>
      (st.nextHandle,
        ⟨st.registry ++ [(shortForm address, st.nextHandle)], st.nextHandle + 1⟩)
  else
    (st.nextHandle, ⟨st.registry, st.nextHandle + 1⟩)

/-- An object a session can be compared against with `__eq__`: either an
instance of `Scpi_Instrument` (or a subclass), carrying its concrete class
name and its `address` attribute, or any other Python object. -/
inductive PyObj where
  | scpi (className : String) (address : String)
  | other
deriving DecidableEq

/-- `Scpi_Instrument.__eq__` (identical in `core.py` and `__core.py`): `False`
unless `obj` is a `Scpi_Instrument` instance; then `False` when the addresses
differ; then `False` when the concrete class names differ; otherwise
`True`.  `className`/`address` are the concrete class name and address of
`self`. -/
def scpi_eq (className address : String) (obj : PyObj) : Bool :=
  match obj with
  | PyObj.other => false
  | PyObj.scpi c a =>
    if ¬ (address = a) then false
    else if ¬ (className = c) then false
    else true

/-- `Scpi_Instrument.__ne__`: the negation of `__eq__`. -/
def scpi_ne (className address : String) (obj : PyObj) : Bool :=
  ! (scpi_eq className address obj)

/-- Behaviour of the underlying transport when
`self.instrument.control_ren(...)` is attempted: it succeeds, or raises
`AttributeError` (no `control_ren` on this resource), or raises
`VisaIOError`. -/
inductive RenAttempt where
  | succeeds
  | raisesAttributeError
  | raisesVisaIOError
deriving DecidableEq

/-- A Python exception escaping `set_local`. -/
inductive PyExc where
  | visaIOError
  | attributeError
deriving DecidableEq

/-- `Scpi_Instrument.set_local` of `core.py`: the `control_ren` attempt is
wrapped in `try/except (AttributeError, VisaIOError): pass`, so both kinds of
raise are swallowed. -/
def set_local_core (attempt : RenAttempt) : Except PyExc Unit :=
  match attempt with
  | RenAttempt.succeeds => Except.ok ()
  | RenAttempt.raisesAttributeError => Except.ok ()
  | RenAttempt.raisesVisaIOError => Except.ok ()

/-- `Scpi_Instrument.set_local` of `__core.py`: the `control_ren` attempt is
wrapped in `try/except AttributeError: pass` only, so a raised `VisaIOError`
propagates to the caller. -/
def set_local_ucore (attempt : RenAttempt) : Except PyExc Unit :=
  match attempt with
  | RenAttempt.succeeds => Except.ok ()
  | RenAttempt.raisesAttributeError => Except.ok ()
  | RenAttempt.raisesVisaIOError => Except.error PyExc.visaIOError

/-- Python `mapper.get(key)` for a string-to-string dict in insertion
order. -/
def pyGet (mapper : List (String × String)) (key : String) : Option String :=
  match mapper with
  | [] => none
  | (k, v) :: rest => if key = k then some v else pyGet rest key

/-- Python dict assignment `d[key] = v`: replace the value in place when the
key is present, otherwise append. -/
def dictInsert (d : List (String × Nat)) (key : String) (v : Nat) :
    List (String × Nat) :=
  match d with
  | [] => [(key, v)]
  | (k, w) :: rest =>
    if key = k then (k, v) :: rest else (k, w) :: dictInsert rest key v

/-- The loop body of `Dmms.fetch_data`: iterate over the members
`(name, measurement)` of the namespace in insertion order; look the name up
in the mapper; an unmapped member is skipped when `only_mapped` and kept
under its own name otherwise; a mapped member is stored under the mapped
name.  A member is modelled by the measurement its `fetch_data()` call
returns. -/
def fetchLoop (mapper : List (String × String)) (only_mapped : Bool)
    (acc : List (String × Nat)) : List (String × Nat) → List (String × Nat)
  | [] => acc
  | (name, v) :: rest =>
    match pyGet mapper name with
    | none =>
      if only_mapped then fetchLoop mapper only_mapped acc rest
      else fetchLoop mapper only_mapped (dictInsert acc name v) rest
    | some nn => fetchLoop mapper only_mapped (dictInsert acc nn v) rest

/-- `Dmms.fetch_data(mapper, only_mapped)` of `__core.py`: the measurements
dict built from an empty dict by the loop above (with `mapper` defaulting to
the empty dict when absent). -/
def fetch_data (members : List (String × Nat))
    (mapper : List (String × String)) (only_mapped : Bool) :
    List (String × Nat) :=
  fetchLoop mapper only_mapped [] members

/-- Result of calling a device method with keyword arguments: normal return,
or a raised `TypeError` (invalid kwargs). -/
inductive CallResult where
  | ok
  | typeError (msg : String)

/-- A connected device instance, as `initiaize_device` sees it:
`validCmds` is `get_callable_methods(inst)` (the callable, non-dunder
method names) and `call` is the effect of `getattr(inst, cmd)(**args)`. -/
structure Inst where
  validCmds : List String
  call : String → List (String × String) → CallResult

/-- Diagnostics the orchestrator layer reports while it runs: the
`[CONNECTED]`, `[FAILED CONNECTION]` and `[UNSUPPORTED DEVICE]` lines of
`__make_connections` and the `Error with initialization command` warning of
`initiaize_device`. -/
inductive Event where
  | connected (name : String)
  | failedConnection (name : String)
  | unsupportedDevice (name : String)
  | initWarning (msg : String)
deriving DecidableEq

/-- `initiaize_device(inst, initialization_sequence)` of `__core.py` (the
source's spelling).  Walks the `(cmd, args)` pairs in order; a pair whose
`cmd` is not among the valid methods is skipped silently; a recognized pair
is called, and a raised `TypeError` is caught and printed as a warning.
Returns the calls actually attempted, in order, together with the warning
events. -/
def initiaize_device (inst : Inst) :
    List (String × List (String × String)) →
      List (String × List (String × String)) × List Event
  | [] => ([], [])
  | (cmd, args) :: rest =>
    if strMem cmd inst.validCmds then
      match inst.call cmd args, initiaize_device inst rest with
      | CallResult.ok, r => ((cmd, args) :: r.1, r.2)
      | CallResult.typeError msg, r =>
        ((cmd, args) :: r.1, Event.initWarning msg :: r.2)
    else
      initiaize_device inst rest

/-- One `device_name` entry of the configuration dict: the `definition`,
`object` and `address` keys plus the optional `kwargs` and `init` keys. -/
structure Descriptor where
  definition : String
  object : String
  address : String
  kwargs : List (String × String)
  init : Option (List (String × List (String × String)))
deriving DecidableEq

/-- What dynamically resolving and instantiating one descriptor does: it
yields an instance, or raises `VisaIOError`/`ConnectionError`
(a connection failure), or raises `ModuleNotFoundError`/`AttributeError`
(an unsupported device). -/
inductive Outcome where
  | ok (inst : Inst)
  | connectionFailure
  | unsupported

/-- Whether an outcome is one of the two failure kinds. -/
def Outcome.failed : Outcome → Bool
  | Outcome.ok _ => false
  | Outcome.connectionFailure => true
  | Outcome.unsupported => true

/-- The init-sequence events of one successfully connected device:
`initiaize_device` runs exactly when the descriptor has an `init` key and
`init_devices` was requested. -/
def initEvents (init_devices : Bool) (inst : Inst) (desc : Descriptor) :
    List Event :=
  match desc.init with
  | some seq => if init_devices then (initiaize_device inst seq).2 else []
  | none => []

/-- Python `device_name.replace('DMM', '')` on character lists: remove every
(left-to-right, non-overlapping) occurrence. -/
def removeDMMList : List Char → List Char
  | 'D' :: 'M' :: 'M' :: rest => removeDMMList rest
  | c :: rest => c :: removeDMMList rest
  | [] => []

/-- Python `device_name.replace('DMM', '')`, the derived short name under
which a multimeter is registered into the `dmms` container. -/
def removeDMM (s : String) : String :=
  String.mk (removeDMMList s.toList)

/-- The successful part of a resolution: the instance attributes
`vars(self)[device_name]` set by `__make_connections`, and the `dmms`
container contents. -/
structure Env where
  attrs : List (String × Inst)
  dmms : List (String × Inst)

/-- The exceptions `EnvironmentSetup.__init__` can raise: the
`IOError("Required Equipment Missing")` whose accompanying console output
names the missing devices (the spec's MissingEquipment), and the
`ConnectionError(f"Failed connection: {device_name}")` raised when a masked
device fails (the spec's ConnectionAborted). -/
inductive SetupError where
  | missingEquipment (missing : List String)
  | connectionAborted (name : String)
deriving DecidableEq

/-- The device loop of `EnvironmentSetup.__make_connections`, after the mask
filtering already happened: resolve and instantiate each remaining
descriptor in order (`world` gives the outcome); on success set the
attribute, extend `dmms` when `'multimeter' in device_info['definition']`,
and run the init sequence when requested; on either failure kind report the
event and, when a mask is active, abort everything by raising
`ConnectionError`. -/
def makeConnections (world : Descriptor → Outcome)
    (init_devices maskPresent : Bool) :
    List (String × Descriptor) → Except SetupError Env × List Event
  | [] => (Except.ok ⟨[], []⟩, [])
  | (name, desc) :: rest =>
    match world desc with
    | Outcome.ok inst =>
      match makeConnections world init_devices maskPresent rest with
      | (Except.ok env, evts) =>
        (Except.ok
          ⟨(name, inst) :: env.attrs,
            if strContains "multimeter" desc.definition then
              (removeDMM name, inst) :: env.dmms
            else env.dmms⟩,
          Event.connected name :: (initEvents init_devices inst desc ++ evts))
      | (Except.error e, evts) =>
        (Except.error e,
          Event.connected name :: (initEvents init_devices inst desc ++ evts))
    | Outcome.connectionFailure =>
      if maskPresent then
        (Except.error (SetupError.connectionAborted name),
          [Event.failedConnection name])
      else
        match makeConnections world init_devices maskPresent rest with
        | (r, evts) => (r, Event.failedConnection name :: evts)
    | Outcome.unsupported =>
      if maskPresent then
        (Except.error (SetupError.connectionAborted name),
          [Event.unsupportedDevice name])
      else
        match makeConnections world init_devices maskPresent rest with
        | (r, evts) => (r, Event.unsupportedDevice name :: evts)

/-- Everything observable about one `EnvironmentSetup(...)` construction from
an in-memory configuration dict: the raised exception or the connected
environment, the reported events, and the final contents of the very dict
the caller passed in (`self.configuration` is that dict, not a copy, and the
mask filtering `pop`s entries from it in place). -/
structure SetupResult where
  result : Except SetupError Env
  events : List Event
  finalConfig : List (String × Descriptor)

/-- `EnvironmentSetup.__init__(equipment_setup, object_mask, init_devices)`
of `__core.py` for an in-memory dict: when a mask is supplied, compare the
intersection of the configured names with the mask against the mask; on a
mismatch print the missing items and raise before any connection is
attempted; otherwise `__make_connections` first pops every non-mask entry
from the configuration dict in place and then runs the device loop. -/
def environmentSetup (world : Descriptor → Outcome)
    (config : List (String × Descriptor)) (object_mask : Option (List String))
    (init_devices : Bool) : SetupResult :=
  match object_mask with
  | none =>
    match makeConnections world init_devices false config with
    | (r, evts) => ⟨r, evts, config⟩
  | some mask =>
    if mask.all (fun x => strMem x (config.map Prod.fst)) then
      match makeConnections world init_devices true
          (config.filter (fun p => strMem p.1 mask)) with
      | (r, evts) => ⟨r, evts, config.filter (fun p => strMem p.1 mask)⟩
    else
      ⟨Except.error (SetupError.missingEquipment
          (mask.filter (fun x => ! strMem x (config.map Prod.fst)))),
        [], config⟩

/-- Whether an event is an `[UNSUPPORTED DEVICE]` report. -/
def isUnsupportedEvent : Event → Bool
  | Event.unsupportedDevice _ => true
  | _ => false

/-- Whether a resolution outcome is the unsupported-device failure. -/
def isUnsupportedOutcome : Outcome → Bool
  | Outcome.unsupported => true
  | _ => false

/-- A device instance whose methods all succeed, for concrete scenarios. -/
def instOk : Inst :=
  ⟨["rst", "set_voltage"], fun _ _ => CallResult.ok⟩

/-- A device instance with no callable methods at all. -/
def instEmpty : Inst :=
  ⟨[], fun _ _ => CallResult.ok⟩

/-- A concrete descriptor with empty kwargs. -/
def descGood : Descriptor :=
  ⟨"pythonequipmentdrivers.source", "Chroma_62012P",
    "USB0::0x1698::0x0837::INSTR", [], none⟩

/-- A second concrete descriptor with empty kwargs. -/
def descGood2 : Descriptor :=
  ⟨"pythonequipmentdrivers.multimeter", "Fluke_45",
    "GPIB0::7::INSTR", [], none⟩

/-- A concrete descriptor with nonempty kwargs, used as the failing one. -/
def descBad : Descriptor :=
  ⟨"pythonequipmentdrivers.sink", "Chroma_63206A",
    "GPIB0::5::INSTR", [("x", "y")], none⟩

/-- A world in which descriptors with empty kwargs connect fine and all
others fail to connect. -/
def worldConn : Descriptor → Outcome :=
  fun d => if d.kwargs.isEmpty then Outcome.ok instOk
           else Outcome.connectionFailure

/-- A world in which descriptors with empty kwargs connect fine and all
others fail to resolve. -/
def worldUnsup : Descriptor → Outcome :=
  fun d => if d.kwargs.isEmpty then Outcome.ok instOk
           else Outcome.unsupported

/-- Boolean string membership agrees with list membership. -/
theorem strMem_iff (x : String) (l : List String) : strMem x l = true ↔ x ∈ l := by
  induction l with
  | nil => simp [strMem]
  | cons y rest ih =>
    by_cases h : x = y
    · subst h; simp [strMem]
    · simp [strMem, h, ih]

/-- Boolean string non-membership agrees with list non-membership. -/
theorem strMem_eq_false_iff (x : String) (l : List String) :
    strMem x l = false ↔ x ∉ l := by
  constructor
  · intro h hx
    rw [(strMem_iff x l).mpr hx] at h
    cases h
  · intro h
    cases hb : strMem x l
    · rfl
    · exact absurd ((strMem_iff x l).mp hb) h

/-- The Boolean mask-subset test of `EnvironmentSetup.__init__` agrees with
the subset relation on names. -/
theorem all_strMem_iff (mask names : List String) :
    mask.all (fun x => strMem x names) = true ↔ ∀ x ∈ mask, x ∈ names := by
  rw [List.all_eq_true]
  constructor
  · intro h x hx
    exact (strMem_iff x names).mp (h x hx)
  · intro h x hx
    exact (strMem_iff x names).mpr (h x hx)

/-- Claim C1 (code behaviour at the failing input): the registry lookup of
`open_instrument` matches by substring containment, not by short-form key
equality.  Opening `"ASRL1::INSTR"` and then `"ASRL10::INSTR"` — two
locators with distinct short-form keys — returns the same handle, because
the stored key `"ASRL1"` is a substring of `"ASRL10::INSTR"`. -/
theorem open_instrument_substring_collision :
    shortForm "ASRL1::INSTR" ≠ shortForm "ASRL10::INSTR"
    ∧ (open_instrument regInit "ASRL1::INSTR").1
        = (open_instrument (open_instrument regInit "ASRL1::INSTR").2
            "ASRL10::INSTR").1 := by
  decide

/-- Claim C5 (code behaviour at the failing input): the registry is not
deduplicating.  Opening the serial locator `"asrl3::instr"` twice opens two
distinct handles and appends two registry entries under the same short-form
key `"asrl3"`, because the stored key is not uppercased while the lookup
compares it against the uppercased address. -/
theorem serial_registry_duplicate_reopen :
    (open_instrument regInit "asrl3::instr").1
      ≠ (open_instrument (open_instrument regInit "asrl3::instr").2
          "asrl3::instr").1
    ∧ (open_instrument (open_instrument regInit "asrl3::instr").2
        "asrl3::instr").2.registry = [("asrl3", 0), ("asrl3", 1)] := by
  decide

/-- Claim C6: `__eq__` holds between a session and another object exactly
when the other object is a `Scpi_Instrument` instance with the same address
and the same concrete class name; comparison against a non-session object is
always false; and `__ne__` is pointwise the negation of `__eq__`. -/
theorem scpi_equality_semantics :
    (∀ c1 a1 c2 a2, scpi_eq c1 a1 (PyObj.scpi c2 a2) = true ↔ c1 = c2 ∧ a1 = a2)
    ∧ (∀ c a, scpi_eq c a PyObj.other = false)
    ∧ (∀ c a obj, scpi_ne c a obj = ! scpi_eq c a obj) := by
  refine ⟨?_, fun c a => rfl, fun c a obj => rfl⟩
  intro c1 a1 c2 a2
  constructor
  · intro h
    by_cases ha : a1 = a2
    · by_cases hc : c1 = c2
      · exact ⟨hc, ha⟩
      · simp [scpi_eq, ha, hc] at h
    · simp [scpi_eq, ha] at h
  · rintro ⟨hc, ha⟩
    simp [scpi_eq, ha, hc]

/-- Claim C9 (counterexample): in `__core.py` the `set_local` attempt is
guarded only against `AttributeError`, so a transport whose `control_ren`
attempt raises `VisaIOError` makes `set_local` raise to the caller instead
of completing as a silent no-op. -/
theorem set_local_ucore_raises :
    set_local_ucore RenAttempt.raisesVisaIOError
      = Except.error PyExc.visaIOError := rfl

/-- Claim C9 (amended): `core.py`'s `set_local` never raises — both
`AttributeError` and `VisaIOError` from the return-to-local attempt are
swallowed — while `__core.py`'s `set_local` swallows only `AttributeError`
and propagates a `VisaIOError`. -/
theorem set_local_best_effort :
    (∀ attempt, set_local_core attempt = Except.ok ())
    ∧ set_local_ucore RenAttempt.raisesAttributeError = Except.ok ()
    ∧ set_local_ucore RenAttempt.raisesVisaIOError
        = Except.error PyExc.visaIOError := by
  refine ⟨?_, rfl, rfl⟩
  intro attempt
  cases attempt <;> rfl

/-- Claim C8 (counterexample): an init pair whose method name is not a
recognized operation of the device is skipped with NO report: running
`initiaize_device` on a device with no valid methods and the single pair
`("foo", {})` attempts no call and emits no event at all. -/
theorem init_unrecognized_not_reported :
    initiaize_device instEmpty [("foo", [])] = ([], []) := rfl

/-- Claim C8 (amended): `initiaize_device` attempts exactly the recognized
`(methodName, argumentMap)` pairs, in declared order (unrecognized pairs are
silently dropped, producing no report), and the reported events are exactly
one warning per attempted call that raises a bad-argument `TypeError` — so a
bad-argument failure neither stops the remaining pairs nor escapes the
function. -/
theorem init_sequence_execution (inst : Inst)
    (seq : List (String × List (String × String))) :
    (initiaize_device inst seq).1
      = seq.filter (fun p => strMem p.1 inst.validCmds)
    ∧ (initiaize_device inst seq).2
      = (seq.filter (fun p => strMem p.1 inst.validCmds)).filterMap
          (fun p =>
            match inst.call p.1 p.2 with
            | CallResult.ok => none
            | CallResult.typeError msg => some (Event.initWarning msg)) := by
  induction seq with
  | nil => exact ⟨rfl, rfl⟩
  | cons p rest ih =>
    obtain ⟨cmd, args⟩ := p
    cases hm : strMem cmd inst.validCmds
    · simpa [initiaize_device, hm, List.filter_cons] using ih
    · cases hc : inst.call cmd args <;>
        simp [initiaize_device, hm, hc, List.filter_cons, List.filterMap_cons,
          ih.1, ih.2]

/-- Keys after a dict assignment: the assigned key plus the previous keys. -/
theorem dictInsert_mem_keys (d : List (String × Nat)) (key : String) (v : Nat)
    (k : String) :
    k ∈ (dictInsert d key v).map Prod.fst ↔ k = key ∨ k ∈ d.map Prod.fst := by
  induction d with
  | nil => simp [dictInsert]
  | cons p rest ih =>
    obtain ⟨k', w⟩ := p
    by_cases h : key = k'
    · subst h
      simp only [dictInsert, eq_self_iff_true, if_true, List.map_cons,
        List.mem_cons]
      tauto
    · simp only [dictInsert, if_neg h, List.map_cons, List.mem_cons, ih]
      tauto

/-- Keys already collected by the `fetch_data` loop are never removed. -/
theorem fetchLoop_keys_mono (mapper : List (String × String)) (om : Bool)
    (l : List (String × Nat)) (acc : List (String × Nat)) (k : String)
    (h : k ∈ acc.map Prod.fst) :
    k ∈ (fetchLoop mapper om acc l).map Prod.fst := by
  induction l generalizing acc with
  | nil => exact h
  | cons p rest ih =>
    obtain ⟨name, v⟩ := p
    cases hg : pyGet mapper name with
    | none =>
      cases om
      · simpa [fetchLoop, hg] using
          ih _ ((dictInsert_mem_keys acc name v k).mpr (Or.inr h))
      · simpa [fetchLoop, hg] using ih acc h
    | some nn =>
      simpa [fetchLoop, hg] using
        ih _ ((dictInsert_mem_keys acc nn v k).mpr (Or.inr h))

/-- With `only_mapped` set, every key the `fetch_data` loop produces is
either already in the accumulator or the remapped label of some mapped
member. -/
theorem fetchLoop_true_keys (mapper : List (String × String))
    (l : List (String × Nat)) (acc : List (String × Nat)) (k : String)
    (h : k ∈ (fetchLoop mapper true acc l).map Prod.fst) :
    k ∈ acc.map Prod.fst ∨ ∃ p ∈ l, pyGet mapper p.1 = some k := by
  induction l generalizing acc with
  | nil => exact Or.inl h
  | cons p rest ih =>
    obtain ⟨name, v⟩ := p
    cases hg : pyGet mapper name with
    | none =>
      rw [fetchLoop, hg] at h
      rcases ih acc (by simpa using h) with h' | ⟨q, hq, hqk⟩
      · exact Or.inl h'
      · exact Or.inr ⟨q, List.mem_cons_of_mem _ hq, hqk⟩
    | some nn =>
      rw [fetchLoop, hg] at h
      rcases ih _ h with h' | ⟨q, hq, hqk⟩
      · rcases (dictInsert_mem_keys acc nn v k).mp h' with rfl | h''
        · exact Or.inr ⟨(name, v), List.mem_cons_self _ _, hg⟩
        · exact Or.inl h''
      · exact Or.inr ⟨q, List.mem_cons_of_mem _ hq, hqk⟩

/-- With `only_mapped` unset, an unmapped member is kept under its own
name. -/
theorem fetchLoop_false_keeps (mapper : List (String × String))
    (l : List (String × Nat)) (acc : List (String × Nat))
    (p : String × Nat) (hp : p ∈ l) (hg : pyGet mapper p.1 = none) :
    p.1 ∈ (fetchLoop mapper false acc l).map Prod.fst := by
  obtain ⟨name, v⟩ := p
  induction l generalizing acc with
  | nil => cases hp
  | cons q rest ih =>
    obtain ⟨name', v'⟩ := q
    rcases List.mem_cons.mp hp with heq | hp'
    · injection heq with h1 h2
      subst h1
      subst h2
      simp only at hg ⊢
      simp only [fetchLoop, hg]
      exact fetchLoop_keys_mono _ _ _ _ _
        ((dictInsert_mem_keys acc name v name).mpr (Or.inl rfl))
    · cases hg' : pyGet mapper name' with
      | none =>
        simpa [fetchLoop, hg'] using ih _ hp'
      | some nn =>
        simpa [fetchLoop, hg'] using ih _ hp'

/-- Claim C7: `Dmms.fetch_data` with the remapping `{"A": "alpha"}` and
`only_mapped` over members `A` and `B` is keyed only by `"alpha"`; in
general with `only_mapped` every result key is the remapped label of a
mapped member (unmapped members are dropped), and without `only_mapped`
every unmapped member is kept under its original name. -/
theorem dmms_fetch_mapping :
    (∀ va vb : Nat,
      fetch_data [("A", va), ("B", vb)] [("A", "alpha")] true = [("alpha", va)])
    ∧ (∀ members mapper k, k ∈ (fetch_data members mapper true).map Prod.fst →
        ∃ p ∈ members, pyGet mapper p.1 = some k)
    ∧ (∀ members mapper (p : String × Nat), p ∈ members →
        pyGet mapper p.1 = none →
        p.1 ∈ (fetch_data members mapper false).map Prod.fst) := by
  refine ⟨fun va vb => rfl, ?_, ?_⟩
  · intro members mapper k h
    rcases fetchLoop_true_keys mapper members [] k h with h' | h'
    · simp at h'
    · exact h'
  · intro members mapper p hp hg
    exact fetchLoop_false_keeps mapper members [] p hp hg

/-- Witness for claim C7 at a concrete group: the key `"alpha"` produced by
the mapped fetch over members `A`, `B` is indeed the remapped label of a
member of the group. -/
theorem dmms_fetch_mapping_witness :
    ∃ p ∈ [("A", (1 : Nat)), ("B", 2)], pyGet [("A", "alpha")] p.1 = some "alpha" :=
  dmms_fetch_mapping.2.1 [("A", 1), ("B", 2)] [("A", "alpha")] "alpha" (by decide)

/-- The init sequence of one device emits only bad-argument warnings, never
an unsupported-device report. -/
theorem initiaize_device_no_unsupported (inst : Inst)
    (seq : List (String × List (String × String))) :
    ((initiaize_device inst seq).2).countP isUnsupportedEvent = 0 := by
  induction seq with
  | nil => rfl
  | cons p rest ih =>
    obtain ⟨cmd, args⟩ := p
    cases hm : strMem cmd inst.validCmds
    · simpa [initiaize_device, hm] using ih
    · cases hc : inst.call cmd args <;>
        simp [initiaize_device, hm, hc, List.countP_cons, isUnsupportedEvent, ih]

/-- The optional init run of a connected device emits no unsupported-device
report either. -/
theorem initEvents_no_unsupported (b : Bool) (inst : Inst) (desc : Descriptor) :
    (initEvents b inst desc).countP isUnsupportedEvent = 0 := by
  cases hinit : desc.init with
  | none => simp [initEvents, hinit]
  | some seq =>
    cases b
    · simp [initEvents, hinit]
    · simpa [initEvents, hinit] using initiaize_device_no_unsupported inst seq

/-- With a mask active, the device loop ends in a raised `ConnectionError`
whenever any listed device fails to resolve or connect. -/
theorem makeConnections_error_of_failed (world : Descriptor → Outcome)
    (init_devices : Bool) (l : List (String × Descriptor))
    (name : String) (desc : Descriptor)
    (hmem : (name, desc) ∈ l) (hfail : (world desc).failed = true) :
    ∃ n, (makeConnections world init_devices true l).1
      = Except.error (SetupError.connectionAborted n) := by
  induction l with
  | nil => cases hmem
  | cons hd tl ih =>
    obtain ⟨hname, hdesc⟩ := hd
    rcases List.mem_cons.mp hmem with heq | hmem'
    · injection heq with h1 h2
      subst h1
      subst h2
      cases ho : world desc
      · rw [ho] at hfail; cases hfail
      · exact ⟨name, by simp [makeConnections, ho]⟩
      · exact ⟨name, by simp [makeConnections, ho]⟩
    · cases ho : world hdesc
      case ok inst =>
        obtain ⟨n, hn⟩ := ih hmem'
        refine ⟨n, ?_⟩
        rcases hr : makeConnections world init_devices true tl with ⟨r, evts⟩
        rw [hr] at hn
        simp only at hn
        subst hn
        simp [makeConnections, ho, hr]
      case connectionFailure => exact ⟨hname, by simp [makeConnections, ho]⟩
      case unsupported => exact ⟨hname, by simp [makeConnections, ho]⟩

/-- Without a mask the constructor just runs the device loop and leaves the
caller's configuration dict untouched. -/
theorem environmentSetup_none (world : Descriptor → Outcome)
    (config : List (String × Descriptor)) (init_devices : Bool) :
    (environmentSetup world config none init_devices).result
        = (makeConnections world init_devices false config).1
    ∧ (environmentSetup world config none init_devices).events
        = (makeConnections world init_devices false config).2 := by
  rcases h : makeConnections world init_devices false config with ⟨r, evts⟩
  simp [environmentSetup, h]

/-- Without a mask the device loop never raises, and the resulting instance
attributes are exactly the successfully resolved devices, in encounter
order. -/
theorem makeConnections_unmasked_ok (world : Descriptor → Outcome)
    (init_devices : Bool) (l : List (String × Descriptor)) :
    ∃ env, (makeConnections world init_devices false l).1 = Except.ok env
      ∧ env.attrs = l.filterMap (fun p =>
          match world p.2 with
          | Outcome.ok i => some (p.1, i)
          | _ => none) := by
  induction l with
  | nil => exact ⟨⟨[], []⟩, rfl, rfl⟩
  | cons hd tl ih =>
    obtain ⟨name, desc⟩ := hd
    obtain ⟨env, henv, hattrs⟩ := ih
    rcases hr : makeConnections world init_devices false tl with ⟨r, evts⟩
    rw [hr] at henv
    simp only at henv
    subst henv
    cases ho : world desc
    case ok inst =>
      refine ⟨⟨(name, inst) :: env.attrs,
        if strContains "multimeter" desc.definition then
          (removeDMM name, inst) :: env.dmms
        else env.dmms⟩, ?_, ?_⟩
      · simp [makeConnections, ho, hr]
      · simp [List.filterMap_cons, ho, hattrs]
    case connectionFailure =>
      exact ⟨env, by simp [makeConnections, ho, hr],
        by simp [List.filterMap_cons, ho, hattrs]⟩
    case unsupported =>
      exact ⟨env, by simp [makeConnections, ho, hr],
        by simp [List.filterMap_cons, ho, hattrs]⟩

/-- Without a mask the loop reports exactly one `[UNSUPPORTED DEVICE]` event
per device whose implementation reference fails to resolve. -/
theorem makeConnections_unmasked_events (world : Descriptor → Outcome)
    (init_devices : Bool) (l : List (String × Descriptor)) :
    ((makeConnections world init_devices false l).2).countP isUnsupportedEvent
      = l.countP (fun p => isUnsupportedOutcome (world p.2)) := by
  induction l with
  | nil => rfl
  | cons hd tl ih =>
    obtain ⟨name, desc⟩ := hd
    rcases hr : makeConnections world init_devices false tl with ⟨r, evts⟩
    rw [hr] at ih
    simp only at ih
    cases ho : world desc
    case ok inst =>
      cases r
      case ok env =>
        simp [makeConnections, ho, hr, List.countP_cons, List.countP_append,
          isUnsupportedEvent, isUnsupportedOutcome, ih,
          initEvents_no_unsupported]
      case error e =>
        simp [makeConnections, ho, hr, List.countP_cons, List.countP_append,
          isUnsupportedEvent, isUnsupportedOutcome, ih,
          initEvents_no_unsupported]
    case connectionFailure =>
      simp [makeConnections, ho, hr, List.countP_cons, isUnsupportedEvent,
        isUnsupportedOutcome, ih]
    case unsupported =>
      simp [makeConnections, ho, hr, List.countP_cons, isUnsupportedEvent,
        isUnsupportedOutcome, ih]

/-- Claim C2: when the supplied mask is not a subset of the configured device
names, construction fails with the missing-equipment error whose report
names exactly the missing devices (nonempty), and no connection is attempted
for any device — the event trace is empty. -/
theorem missing_mask_fails_before_connecting (world : Descriptor → Outcome)
    (config : List (String × Descriptor)) (mask : List String)
    (init_devices : Bool)
    (h : ¬ ∀ x ∈ mask, x ∈ config.map Prod.fst) :
    ∃ missing,
      (environmentSetup world config (some mask) init_devices).result
        = Except.error (SetupError.missingEquipment missing)
      ∧ missing ≠ []
      ∧ (∀ x ∈ missing, x ∈ mask ∧ x ∉ config.map Prod.fst)
      ∧ (∀ x ∈ mask, x ∉ config.map Prod.fst → x ∈ missing)
      ∧ (environmentSetup world config (some mask) init_devices).events = [] := by
  have hall : mask.all (fun x => strMem x (config.map Prod.fst)) = false := by
    cases hb : mask.all (fun x => strMem x (config.map Prod.fst))
    · rfl
    · exact absurd ((all_strMem_iff mask (config.map Prod.fst)).mp hb) h
  refine ⟨mask.filter (fun x => ! strMem x (config.map Prod.fst)),
    ?_, ?_, ?_, ?_, ?_⟩
  · simp [environmentSetup, hall]
  · push_neg at h
    obtain ⟨x, hx, hnx⟩ := h
    have : x ∈ mask.filter (fun x => ! strMem x (config.map Prod.fst)) :=
      List.mem_filter.mpr
        ⟨hx, by simp [strMem_eq_false_iff x (config.map Prod.fst), hnx]⟩
    exact List.ne_nil_of_mem this
  · intro x hx
    have := List.mem_filter.mp hx
    refine ⟨this.1, ?_⟩
    have hb : strMem x (config.map Prod.fst) = false := by
      cases hb' : strMem x (config.map Prod.fst)
      · rfl
      · rw [hb'] at this; simp at this
    exact (strMem_eq_false_iff x (config.map Prod.fst)).mp hb
  · intro x hx hnx
    exact List.mem_filter.mpr ⟨hx, by
      simp [(strMem_eq_false_iff x (config.map Prod.fst)).mpr hnx]⟩
  · simp [environmentSetup, hall]

/-- Witness for claim C2 at a concrete configuration and mask: the mask
`{source, meter}` over a configuration holding only `source` aborts with a
nonempty missing-equipment report and an empty event trace. -/
theorem missing_mask_fails_before_connecting_witness :
    (¬ ∀ x ∈ ["source", "meter"], x ∈ ([("source", descGood)].map Prod.fst))
    ∧ ∃ missing,
        (environmentSetup worldConn [("source", descGood)]
            (some ["source", "meter"]) false).result
          = Except.error (SetupError.missingEquipment missing)
        ∧ missing ≠ []
        ∧ (∀ x ∈ missing, x ∈ ["source", "meter"]
            ∧ x ∉ [("source", descGood)].map Prod.fst)
        ∧ (∀ x ∈ ["source", "meter"],
            x ∉ [("source", descGood)].map Prod.fst → x ∈ missing)
        ∧ (environmentSetup worldConn [("source", descGood)]
            (some ["source", "meter"]) false).events = [] :=
  ⟨by decide, missing_mask_fails_before_connecting worldConn
    [("source", descGood)] ["source", "meter"] false (by decide)⟩

/-- Claim C3: with a mask that is a subset of the configured names, a single
masked device that fails to connect or to resolve makes the whole resolution
raise the connection-aborted error, whatever the other devices would have
done. -/
theorem masked_failure_aborts (world : Descriptor → Outcome)
    (config : List (String × Descriptor)) (mask : List String)
    (init_devices : Bool) (name : String) (desc : Descriptor)
    (hsub : ∀ x ∈ mask, x ∈ config.map Prod.fst)
    (hmem : (name, desc) ∈ config) (hmask : name ∈ mask)
    (hfail : (world desc).failed = true) :
    ∃ n, (environmentSetup world config (some mask) init_devices).result
      = Except.error (SetupError.connectionAborted n) := by
  have hall : mask.all (fun x => strMem x (config.map Prod.fst)) = true :=
    (all_strMem_iff mask (config.map Prod.fst)).mpr hsub
  have hmemf : (name, desc) ∈ config.filter (fun p => strMem p.1 mask) :=
    List.mem_filter.mpr ⟨hmem, (strMem_iff name mask).mpr hmask⟩
  obtain ⟨n, hn⟩ := makeConnections_error_of_failed world init_devices
    (config.filter (fun p => strMem p.1 mask)) name desc hmemf hfail
  refine ⟨n, ?_⟩
  rcases hr : makeConnections world init_devices true
      (config.filter (fun p => strMem p.1 mask)) with ⟨r, evts⟩
  rw [hr] at hn
  simp only at hn
  subst hn
  simp [environmentSetup, hall, hr]

/-- Witness for claim C3 at a concrete configuration: masking `{sink}` while
the `sink` device fails to connect aborts the resolution with the
connection-aborted error. -/
theorem masked_failure_aborts_witness :
    ((∀ x ∈ ["sink"],
        x ∈ ([("source", descGood), ("sink", descBad)].map Prod.fst))
      ∧ ("sink", descBad) ∈ [("source", descGood), ("sink", descBad)]
      ∧ "sink" ∈ ["sink"]
      ∧ (worldConn descBad).failed = true)
    ∧ ∃ n, (environmentSetup worldConn [("source", descGood), ("sink", descBad)]
        (some ["sink"]) false).result
      = Except.error (SetupError.connectionAborted n) :=
  ⟨⟨by decide, by decide, by decide, rfl⟩,
    masked_failure_aborts worldConn [("source", descGood), ("sink", descBad)]
      ["sink"] false "sink" descBad (by decide) (by decide) (by decide) rfl⟩

/-- Claim C4: without a mask, in a three-device configuration whose middle
device fails to resolve while the other two connect, construction succeeds,
the environment holds devices one and three and not device two, and exactly
one unsupported-device event is reported. -/
theorem unmasked_unsupported_skipped (world : Descriptor → Outcome)
    (init_devices : Bool) (n1 n2 n3 : String) (d1 d2 d3 : Descriptor)
    (i1 i3 : Inst)
    (h1 : world d1 = Outcome.ok i1) (h2 : world d2 = Outcome.unsupported)
    (h3 : world d3 = Outcome.ok i3) (h21 : n2 ≠ n1) (h23 : n2 ≠ n3) :
    ∃ env,
      (environmentSetup world [(n1, d1), (n2, d2), (n3, d3)] none
          init_devices).result = Except.ok env
      ∧ (n1, i1) ∈ env.attrs
      ∧ (n3, i3) ∈ env.attrs
      ∧ (∀ i, (n2, i) ∉ env.attrs)
      ∧ ((environmentSetup world [(n1, d1), (n2, d2), (n3, d3)] none
          init_devices).events).countP isUnsupportedEvent = 1 := by
  obtain ⟨env, henv, hattrs⟩ :=
    makeConnections_unmasked_ok world init_devices [(n1, d1), (n2, d2), (n3, d3)]
  have hattrs' : env.attrs = [(n1, i1), (n3, i3)] := by
    rw [hattrs]
    simp [List.filterMap_cons, h1, h2, h3]
  refine ⟨env, ?_, ?_, ?_, ?_, ?_⟩
  · rw [(environmentSetup_none world _ init_devices).1, henv]
  · rw [hattrs']; simp
  · rw [hattrs']; simp
  · intro i hi
    rw [hattrs'] at hi
    rcases List.mem_cons.mp hi with heq | hi'
    · exact h21 (congrArg Prod.fst heq)
    · rcases List.mem_cons.mp hi' with heq | hi''
      · exact h23 (congrArg Prod.fst heq)
      · cases hi''
  · rw [(environmentSetup_none world _ init_devices).2,
      makeConnections_unmasked_events]
    simp [List.countP_cons, h1, h2, h3, isUnsupportedOutcome]

/-- Witness for claim C4 at a concrete three-device configuration: devices
`a` and `c` connect, the unresolvable `b` is skipped with exactly one
unsupported-device report. -/
theorem unmasked_unsupported_skipped_witness :
    (worldUnsup descGood = Outcome.ok instOk
      ∧ worldUnsup descBad = Outcome.unsupported
      ∧ worldUnsup descGood2 = Outcome.ok instOk
      ∧ "b" ≠ "a" ∧ "b" ≠ "c")
    ∧ ∃ env,
        (environmentSetup worldUnsup
            [("a", descGood), ("b", descBad), ("c", descGood2)] none
            false).result = Except.ok env
        ∧ ("a", instOk) ∈ env.attrs
        ∧ ("c", instOk) ∈ env.attrs
        ∧ (∀ i, ("b", i) ∉ env.attrs)
        ∧ ((environmentSetup worldUnsup
            [("a", descGood), ("b", descBad), ("c", descGood2)] none
            false).events).countP isUnsupportedEvent = 1 :=
  ⟨⟨rfl, rfl, rfl, by decide, by decide⟩,
    unmasked_unsupported_skipped worldUnsup false "a" "b" "c"
      descGood descBad descGood2 instOk instOk rfl rfl rfl
      (by decide) (by decide)⟩

/-- Claim C10: the orchestrator filters the caller's own configuration
mapping in place — with a valid mask, after construction the caller's dict
holds exactly the masked device names; with no mask it is left unchanged. -/
theorem mask_filters_callers_config (world : Descriptor → Outcome)
    (config : List (String × Descriptor)) (mask : List String)
    (init_devices : Bool)
    (hsub : ∀ x ∈ mask, x ∈ config.map Prod.fst) :
    (∀ k, (∃ d, (k, d) ∈
        (environmentSetup world config (some mask) init_devices).finalConfig)
      ↔ k ∈ mask)
    ∧ (environmentSetup world config none init_devices).finalConfig = config := by
  have hall : mask.all (fun x => strMem x (config.map Prod.fst)) = true :=
    (all_strMem_iff mask (config.map Prod.fst)).mpr hsub
  have hfc : (environmentSetup world config (some mask) init_devices).finalConfig
      = config.filter (fun p => strMem p.1 mask) := by
    rcases hr : makeConnections world init_devices true
        (config.filter (fun p => strMem p.1 mask)) with ⟨r, evts⟩
    simp [environmentSetup, hall, hr]
  constructor
  · intro k
    rw [hfc]
    constructor
    · rintro ⟨d, hd⟩
      exact (strMem_iff k mask).mp (List.mem_filter.mp hd).2
    · intro hk
      obtain ⟨p, hp, hpk⟩ := List.mem_map.mp (hsub k hk)
      have hkp : (k, p.2) = p := Prod.ext hpk.symm rfl
      refine ⟨p.2, List.mem_filter.mpr ⟨?_, ?_⟩⟩
      · rw [hkp]; exact hp
      · exact (strMem_iff k mask).mpr hk
  · rcases hr : makeConnections world init_devices false config with ⟨r, evts⟩
    simp [environmentSetup, hr]

/-- Witness for claim C10 at a concrete configuration: after constructing
with mask `{sink}` the caller's dict is keyed exactly by `sink`, and a
mask-less construction leaves it as it was. -/
theorem mask_filters_callers_config_witness :
    (∀ x ∈ ["sink"],
      x ∈ ([("source", descGood), ("sink", descBad)].map Prod.fst))
    ∧ ((∀ k, (∃ d, (k, d) ∈ (environmentSetup worldConn
          [("source", descGood), ("sink", descBad)] (some ["sink"])
          false).finalConfig) ↔ k ∈ ["sink"])
      ∧ (environmentSetup worldConn [("source", descGood), ("sink", descBad)]
          none false).finalConfig
        = [("source", descGood), ("sink", descBad)]) :=
  ⟨by decide, mask_filters_callers_config worldConn
    [("source", descGood), ("sink", descBad)] ["sink"] false (by decide)⟩
